import Mathlib

/-!
Shallow embedding of `src/wrappers/javascript/.eslintrc.js`.

The source is a Node/CommonJS module that assigns one constant object
literal to `module.exports`. We embed JavaScript configuration values as
the inductive type `JSValue` (string, boolean, number, array, object
literals — the only value kinds the source uses), and translate the
exported object field by field, in source order, as `eslintrc`.

The only free input of the module is `__dirname` (the directory that
contains the configuration file, supplied by the Node module system); it
is used once, as the value of `parserOptions.tsconfigRootDir`. We model
it as the `String` parameter of `eslintrc`.
-/

namespace EslintrcJs

/-- A JavaScript configuration value: the value kinds that occur in the
source module (string, boolean and numeric literals, array literals and
plain-object literals). -/
inductive JSValue where
  | str : String → JSValue
  | bool : Bool → JSValue
  | num : Int → JSValue
  | arr : List JSValue → JSValue
  | obj : List (String × JSValue) → JSValue

/-- The object assigned to `module.exports` by
`src/wrappers/javascript/.eslintrc.js`, translated field by field in
source order. `dirname` is Node's `__dirname` for the module. -/
def eslintrc (dirname : String) : JSValue :=
  .obj [
    ("ignorePatterns", .arr [.str "node_modules", .str "**/node_modules", .str "**/build"]),
    ("parser", .str "@typescript-eslint/parser"),
    ("extends", .arr [
      .str "eslint:recommended",
      .str "plugin:import/recommended",
      .str "plugin:import/typescript",
      .str "plugin:@typescript-eslint/recommended",
      .str "plugin:@typescript-eslint/recommended-requiring-type-checking",
      .str "plugin:prettier/recommended"]),
    ("parserOptions", .obj [
      ("tsconfigRootDir", .str dirname),
      ("project", .arr [
        .str "./tsconfig.eslint.json",
        .str "shared/tsconfig.json",
        .str "react-native/tsconfig.json",
        .str "nodejs/tsconfig.json",
        .str "react-native-app/tsconfig.json"])]),
    ("settings", .obj [
      ("import/extensions", .arr [.str ".js", .str ".ts", .str ".jsx", .str ".tsx"]),
      ("import/parsers", .obj [
        ("@typescript-eslint/parser", .arr [.str ".ts", .str ".tsx"])]),
      ("import/resolver", .obj [
        ("typescript", .obj [
          ("extensions", .arr [.str ".js", .str ".jsx", .str ".ts", .str ".tsx"]),
          ("project", .arr [
            .str "shared/tsconfig.json",
            .str "react-native/tsconfig.json",
            .str "nodejs/tsconfig.json",
            .str "react-native-app/tsconfig.json"]),
          ("alwaysTryTypes", .bool true)]),
        ("node", .obj [
          ("extensions", .arr [.str ".js", .str ".jsx", .str ".ts", .str ".tsx"]),
          ("project", .arr [
            .str "shared/tsconfig.json",
            .str "react-native/tsconfig.json",
            .str "nodejs/tsconfig.json",
            .str "react-native-app/tsconfig.json"])])])]),
    ("rules", .obj [
      ("@typescript-eslint/explicit-function-return-type", .str "off"),
      ("@typescript-eslint/explicit-module-boundary-types", .str "off"),
      ("@typescript-eslint/no-use-before-define", .arr [.str "error",
        .obj [("functions", .bool false), ("classes", .bool false), ("variables", .bool true)]]),
      ("@typescript-eslint/explicit-member-accessibility", .str "error"),
      ("no-console", .str "error"),
      ("@typescript-eslint/consistent-type-imports", .str "error"),
      ("import/no-cycle", .str "error"),
      ("import/newline-after-import", .arr [.str "error", .obj [("count", .num 1)]]),
      ("import/order", .arr [.str "error", .obj [
        ("groups", .arr [.str "type", .arr [.str "builtin", .str "external"],
          .str "parent", .str "sibling", .str "index"]),
        ("alphabetize", .obj [("order", .str "asc")]),
        ("newlines-between", .str "always")]]),
      ("@typescript-eslint/no-non-null-assertion", .str "error"),
      ("import/no-extraneous-dependencies", .arr [.str "error",
        .obj [("devDependencies", .bool false)]])]),
    ("overrides", .arr [
      .obj [
        ("files", .arr [.str ".eslintrc.js", .str "babel.config.js", .str "metro.config.js"]),
        ("env", .obj [("node", .bool true)]),
        ("rules", .obj [
          ("@typescript-eslint/no-var-requires", .str "off"),
          ("@typescript-eslint/no-unsafe-call", .str "off"),
          ("@typescript-eslint/no-unsafe-assignment", .str "off"),
          ("@typescript-eslint/no-unsafe-member-access", .str "off")])]])]

/-- Property access on an optional object value: `get? v k` is the value
of field `k` when `v` is an object that has it. -/
def get? (v : Option JSValue) (k : String) : Option JSValue :=
  match v with
  | some (.obj fields) => List.lookup k fields
  | _ => none

/-- Iterated property access along a path of field names. -/
def getPath (v : Option JSValue) : List String → Option JSValue
  | [] => v
  | k :: ks => getPath (get? v k) ks

/-- Index access on an optional array value. -/
def idx? (v : Option JSValue) (i : Nat) : Option JSValue :=
  match v with
  | some (.arr vs) => vs.get? i
  | _ => none

/-- Read an optional value as an array of strings. -/
def asStrList (v : Option JSValue) : Option (List String) :=
  match v with
  | some (.arr vs) => vs.mapM (fun w => match w with | .str s => some s | _ => none)
  | _ => none

/-- Number of entries of the `overrides` array of a configuration
object. -/
def overridesCount (v : JSValue) : Option Nat :=
  match get? (some v) "overrides" with
  | some (.arr vs) => some vs.length
  | _ => none

/-- The severity of an ESLint rule entry: the entry itself when it is a
bare string, its first element when it is an array headed by a string. -/
def ruleSeverity : JSValue → Option String
  | .str s => some s
  | .arr (.str s :: _) => some s
  | _ => none

/-- `allRuleEntries p v = true` when `v` is a rules object and every rule
entry in it satisfies `p`. -/
def allRuleEntries (p : JSValue → Bool) (v : Option JSValue) : Bool :=
  match v with
  | some (.obj fields) => fields.all (fun f => p f.2)
  | _ => false

/-- A rule entry whose severity is the bare string `off`. -/
def entryIsOff (e : JSValue) : Bool :=
  match e with
  | .str s => s == "off"
  | _ => false

/-- A rule entry that is the bare severity `error` or `off`, or an array
whose first element is `error`. -/
def entrySevErrorOrOff : JSValue → Bool
  | .str s => s == "error" || s == "off"
  | .arr (.str s :: _) => s == "error"
  | _ => false

/-- A rule entry whose severity is not `warn`. -/
def sevNotWarn (e : JSValue) : Bool :=
  match ruleSeverity e with
  | some s => !(s == "warn")
  | none => true

/-- `optSubset a b = true` when both are string lists and every element
of `a` occurs in `b`. -/
def optSubset (a b : Option (List String)) : Bool :=
  match a, b with
  | some l1, some l2 => l1.all (fun p => l2.contains p)
  | _, _ => false

mutual

/-- `true` when the value tree contains no numeric leaf: it consists
only of strings, booleans, arrays and plain objects. -/
def noNumbers : JSValue → Bool
  | .str _ => true
  | .bool _ => true
  | .num _ => false
  | .arr vs => noNumbersList vs
  | .obj fs => noNumbersFields fs

/-- `noNumbers` over an array's elements. -/
def noNumbersList : List JSValue → Bool
  | [] => true
  | v :: vs => noNumbers v && noNumbersList vs

/-- `noNumbers` over an object's fields. -/
def noNumbersFields : List (String × JSValue) → Bool
  | [] => true
  | f :: fs => noNumbers f.2 && noNumbersFields fs

end

mutual

/-- The numeric leaves of a value tree, in left-to-right order. -/
def numLeaves : JSValue → List Int
  | .str _ => []
  | .bool _ => []
  | .num n => [n]
  | .arr vs => numLeavesList vs
  | .obj fs => numLeavesFields fs

/-- `numLeaves` over an array's elements. -/
def numLeavesList : List JSValue → List Int
  | [] => []
  | v :: vs => numLeaves v ++ numLeavesList vs

/-- `numLeaves` over an object's fields. -/
def numLeavesFields : List (String × JSValue) → List Int
  | [] => []
  | f :: fs => numLeaves f.2 ++ numLeavesFields fs

end

end EslintrcJs

namespace EslintrcJs

/-- C1: the `extends` field of the exported configuration is exactly the
ordered preset list [eslint:recommended, plugin:import/recommended,
plugin:import/typescript, plugin:@typescript-eslint/recommended,
plugin:@typescript-eslint/recommended-requiring-type-checking,
plugin:prettier/recommended], with plugin:prettier/recommended last. -/
theorem c1_extends_presets (d : String) :
    asStrList (getPath (some (eslintrc d)) ["extends"]) =
      some ["eslint:recommended", "plugin:import/recommended", "plugin:import/typescript",
        "plugin:@typescript-eslint/recommended",
        "plugin:@typescript-eslint/recommended-requiring-type-checking",
        "plugin:prettier/recommended"] ∧
    (asStrList (getPath (some (eslintrc d)) ["extends"])).map List.getLast? =
      some (some "plugin:prettier/recommended") :=
  ⟨rfl, rfl⟩

/-- C1 at the concrete directory string. -/
theorem c1_extends_presets_witness :
    asStrList (getPath (some (eslintrc "/w")) ["extends"]) =
      some ["eslint:recommended", "plugin:import/recommended", "plugin:import/typescript",
        "plugin:@typescript-eslint/recommended",
        "plugin:@typescript-eslint/recommended-requiring-type-checking",
        "plugin:prettier/recommended"] ∧
    (asStrList (getPath (some (eslintrc "/w")) ["extends"])).map List.getLast? =
      some (some "plugin:prettier/recommended") :=
  c1_extends_presets "/w"

/-- C2: the configuration has exactly one override block, its `files`
globs are exactly [.eslintrc.js, babel.config.js, metro.config.js], and
every rule entry inside it has severity `off`. -/
theorem c2_override_block (d : String) :
    overridesCount (eslintrc d) = some 1 ∧
    asStrList (getPath (idx? (getPath (some (eslintrc d)) ["overrides"]) 0) ["files"]) =
      some [".eslintrc.js", "babel.config.js", "metro.config.js"] ∧
    allRuleEntries entryIsOff
      (getPath (idx? (getPath (some (eslintrc d)) ["overrides"]) 0) ["rules"]) = true :=
  ⟨rfl, rfl, rfl⟩

/-- C2 at the concrete directory string. -/
theorem c2_override_block_witness :
    overridesCount (eslintrc "/w") = some 1 ∧
    asStrList (getPath (idx? (getPath (some (eslintrc "/w")) ["overrides"]) 0) ["files"]) =
      some [".eslintrc.js", "babel.config.js", "metro.config.js"] ∧
    allRuleEntries entryIsOff
      (getPath (idx? (getPath (some (eslintrc "/w")) ["overrides"]) 0) ["rules"]) = true :=
  c2_override_block "/w"

/-- C3 counterexample: the claim that settings[import/extensions] equals
(same elements, same order) the typescript resolver's `extensions` list
and the node resolver's `extensions` list is false: at any directory,
settings[import/extensions] is [.js, .ts, .jsx, .tsx] while the resolver
lists are [.js, .jsx, .ts, .tsx] — they differ at index 1. -/
theorem c3_extension_lists_counterexample :
    ¬ (asStrList (getPath (some (eslintrc "/w")) ["settings", "import/extensions"]) =
        asStrList (getPath (some (eslintrc "/w"))
          ["settings", "import/resolver", "typescript", "extensions"]) ∧
       asStrList (getPath (some (eslintrc "/w")) ["settings", "import/extensions"]) =
        asStrList (getPath (some (eslintrc "/w"))
          ["settings", "import/resolver", "node", "extensions"])) :=
  fun h => absurd h.1 (by decide)

/-- C3 amended: the typescript and node resolvers declare identical
`extensions` lists, both equal to [.js, .jsx, .ts, .tsx]; the list under
settings[import/extensions] is [.js, .ts, .jsx, .tsx] — the same
elements, but in a different order (a permutation, not an order-equal
list). -/
theorem c3_extension_lists_amended (d : String) :
    asStrList (getPath (some (eslintrc d))
        ["settings", "import/resolver", "typescript", "extensions"]) =
      asStrList (getPath (some (eslintrc d))
        ["settings", "import/resolver", "node", "extensions"]) ∧
    asStrList (getPath (some (eslintrc d))
        ["settings", "import/resolver", "typescript", "extensions"]) =
      some [".js", ".jsx", ".ts", ".tsx"] ∧
    asStrList (getPath (some (eslintrc d)) ["settings", "import/extensions"]) =
      some [".js", ".ts", ".jsx", ".tsx"] ∧
    List.Perm [".js", ".ts", ".jsx", ".tsx"] [".js", ".jsx", ".ts", ".tsx"] :=
  ⟨rfl, rfl, rfl, by decide⟩

/-- C3 amended, at the concrete directory string. -/
theorem c3_extension_lists_amended_witness :
    asStrList (getPath (some (eslintrc "/w"))
        ["settings", "import/resolver", "typescript", "extensions"]) =
      asStrList (getPath (some (eslintrc "/w"))
        ["settings", "import/resolver", "node", "extensions"]) ∧
    asStrList (getPath (some (eslintrc "/w"))
        ["settings", "import/resolver", "typescript", "extensions"]) =
      some [".js", ".jsx", ".ts", ".tsx"] ∧
    asStrList (getPath (some (eslintrc "/w")) ["settings", "import/extensions"]) =
      some [".js", ".ts", ".jsx", ".tsx"] ∧
    List.Perm [".js", ".ts", ".jsx", ".tsx"] [".js", ".jsx", ".ts", ".tsx"] :=
  c3_extension_lists_amended "/w"

/-- C4: `ignorePatterns` is exactly [node_modules, **/node_modules,
**/build], and that list is non-empty. -/
theorem c4_ignore_patterns (d : String) :
    asStrList (getPath (some (eslintrc d)) ["ignorePatterns"]) =
      some ["node_modules", "**/node_modules", "**/build"] ∧
    (asStrList (getPath (some (eslintrc d)) ["ignorePatterns"])).map List.isEmpty =
      some false :=
  ⟨rfl, rfl⟩

/-- C4 at the concrete directory string. -/
theorem c4_ignore_patterns_witness :
    asStrList (getPath (some (eslintrc "/w")) ["ignorePatterns"]) =
      some ["node_modules", "**/node_modules", "**/build"] ∧
    (asStrList (getPath (some (eslintrc "/w")) ["ignorePatterns"])).map List.isEmpty =
      some false :=
  c4_ignore_patterns "/w"

/-- C5: the top-level `parser` field is the single parser
@typescript-eslint/parser, and settings[import/parsers] associates
exactly that parser with exactly the extensions .ts and .tsx. -/
theorem c5_parser_selection (d : String) :
    getPath (some (eslintrc d)) ["parser"] = some (.str "@typescript-eslint/parser") ∧
    getPath (some (eslintrc d)) ["settings", "import/parsers"] =
      some (.obj [("@typescript-eslint/parser", .arr [.str ".ts", .str ".tsx"])]) :=
  ⟨rfl, rfl⟩

/-- C5 at the concrete directory string. -/
theorem c5_parser_selection_witness :
    getPath (some (eslintrc "/w")) ["parser"] = some (.str "@typescript-eslint/parser") ∧
    getPath (some (eslintrc "/w")) ["settings", "import/parsers"] =
      some (.obj [("@typescript-eslint/parser", .arr [.str ".ts", .str ".tsx"])]) :=
  c5_parser_selection "/w"

/-- C6: parserOptions.project is exactly the five-element list
[./tsconfig.eslint.json, shared/tsconfig.json, react-native/tsconfig.json,
nodejs/tsconfig.json, react-native-app/tsconfig.json], and
parserOptions.tsconfigRootDir is `__dirname`, the directory containing
the configuration file. -/
theorem c6_parser_options (d : String) :
    asStrList (getPath (some (eslintrc d)) ["parserOptions", "project"]) =
      some ["./tsconfig.eslint.json", "shared/tsconfig.json", "react-native/tsconfig.json",
        "nodejs/tsconfig.json", "react-native-app/tsconfig.json"] ∧
    getPath (some (eslintrc d)) ["parserOptions", "tsconfigRootDir"] = some (.str d) :=
  ⟨rfl, rfl⟩

/-- C6 at the concrete directory string. -/
theorem c6_parser_options_witness :
    asStrList (getPath (some (eslintrc "/w")) ["parserOptions", "project"]) =
      some ["./tsconfig.eslint.json", "shared/tsconfig.json", "react-native/tsconfig.json",
        "nodejs/tsconfig.json", "react-native-app/tsconfig.json"] ∧
    getPath (some (eslintrc "/w")) ["parserOptions", "tsconfigRootDir"] =
      some (.str "/w") :=
  c6_parser_options "/w"

/-- C7 counterexample: the claim that the exported value is a tree of
only strings, booleans, arrays and plain objects is false: the entry
`import/newline-after-import` carries the numeric option `count: 1`, so
the tree has a numeric leaf (`noNumbers` is false on it), refuting the
conjunction of determinism with the leaf-kind restriction. -/
theorem c7_value_kinds_counterexample :
    ¬ ((∀ d₁ d₂ : String, d₁ = d₂ → eslintrc d₁ = eslintrc d₂) ∧
       noNumbers (eslintrc "/w") = true) :=
  fun h => absurd h.2 (by decide)

/-- C7 amended: evaluating the module is pure and deterministic — equal
`__dirname` inputs give structurally equal exported values — and the
exported value is a finite tree of strings, booleans, numbers, arrays
and plain objects (no function values), whose sole numeric leaf is the
1 of `count: 1` under `import/newline-after-import`. -/
theorem c7_pure_data_tree (d₁ d₂ : String) (h : d₁ = d₂) :
    eslintrc d₁ = eslintrc d₂ ∧ numLeaves (eslintrc d₁) = [1] := by
  subst h
  exact ⟨rfl, rfl⟩

/-- C7 amended, at the concrete directory string. -/
theorem c7_pure_data_tree_witness :
    eslintrc "/w" = eslintrc "/w" ∧ numLeaves (eslintrc "/w") = [1] :=
  c7_pure_data_tree "/w" "/w" rfl

/-- C9: every entry of the top-level `rules` table is either the bare
severity `error` or `off`, or an array whose first element is `error`;
and no rule entry of the top-level table or of the override block has
severity `warn`. -/
theorem c9_severities (d : String) :
    allRuleEntries entrySevErrorOrOff (getPath (some (eslintrc d)) ["rules"]) = true ∧
    allRuleEntries sevNotWarn (getPath (some (eslintrc d)) ["rules"]) = true ∧
    allRuleEntries sevNotWarn
      (getPath (idx? (getPath (some (eslintrc d)) ["overrides"]) 0) ["rules"]) = true :=
  ⟨rfl, rfl, rfl⟩

/-- C9 at the concrete directory string. -/
theorem c9_severities_witness :
    allRuleEntries entrySevErrorOrOff (getPath (some (eslintrc "/w")) ["rules"]) = true ∧
    allRuleEntries sevNotWarn (getPath (some (eslintrc "/w")) ["rules"]) = true ∧
    allRuleEntries sevNotWarn
      (getPath (idx? (getPath (some (eslintrc "/w")) ["overrides"]) 0) ["rules"]) = true :=
  c9_severities "/w"

/-- C10: the typescript and node resolvers carry identical `project`
lists — both exactly [shared/tsconfig.json, react-native/tsconfig.json,
nodejs/tsconfig.json, react-native-app/tsconfig.json] — and identical
`extensions` lists, and every project path of either resolver also
occurs in parserOptions.project. -/
theorem c10_resolver_consistency (d : String) :
    asStrList (getPath (some (eslintrc d))
        ["settings", "import/resolver", "typescript", "project"]) =
      asStrList (getPath (some (eslintrc d))
        ["settings", "import/resolver", "node", "project"]) ∧
    asStrList (getPath (some (eslintrc d))
        ["settings", "import/resolver", "typescript", "project"]) =
      some ["shared/tsconfig.json", "react-native/tsconfig.json", "nodejs/tsconfig.json",
        "react-native-app/tsconfig.json"] ∧
    asStrList (getPath (some (eslintrc d))
        ["settings", "import/resolver", "typescript", "extensions"]) =
      asStrList (getPath (some (eslintrc d))
        ["settings", "import/resolver", "node", "extensions"]) ∧
    optSubset
      (asStrList (getPath (some (eslintrc d))
        ["settings", "import/resolver", "typescript", "project"]))
      (asStrList (getPath (some (eslintrc d)) ["parserOptions", "project"])) = true ∧
    optSubset
      (asStrList (getPath (some (eslintrc d))
        ["settings", "import/resolver", "node", "project"]))
      (asStrList (getPath (some (eslintrc d)) ["parserOptions", "project"])) = true :=
  ⟨rfl, rfl, rfl, rfl, rfl⟩

/-- C10 at the concrete directory string. -/
theorem c10_resolver_consistency_witness :
    asStrList (getPath (some (eslintrc "/w"))
        ["settings", "import/resolver", "typescript", "project"]) =
      asStrList (getPath (some (eslintrc "/w"))
        ["settings", "import/resolver", "node", "project"]) ∧
    asStrList (getPath (some (eslintrc "/w"))
        ["settings", "import/resolver", "typescript", "project"]) =
      some ["shared/tsconfig.json", "react-native/tsconfig.json", "nodejs/tsconfig.json",
        "react-native-app/tsconfig.json"] ∧
    asStrList (getPath (some (eslintrc "/w"))
        ["settings", "import/resolver", "typescript", "extensions"]) =
      asStrList (getPath (some (eslintrc "/w"))
        ["settings", "import/resolver", "node", "extensions"]) ∧
    optSubset
      (asStrList (getPath (some (eslintrc "/w"))
        ["settings", "import/resolver", "typescript", "project"]))
      (asStrList (getPath (some (eslintrc "/w")) ["parserOptions", "project"])) = true ∧
    optSubset
      (asStrList (getPath (some (eslintrc "/w"))
        ["settings", "import/resolver", "node", "project"]))
      (asStrList (getPath (some (eslintrc "/w")) ["parserOptions", "project"])) = true :=
  c10_resolver_consistency "/w"

end EslintrcJs
